import Mathlib

/-!
# Verification of the TouchSkyTrader Forex lot-size calculator

A shallow embedding of the calculator's core: the lot-size calculation
engine (`calculateLotSize` and its helpers from the calculator service and
`constants.ts`) and the pip/price conversion and synchronization machinery
from `App.tsx`.  JavaScript numbers are modelled by exact rationals `ℚ`;
the `number | ''` union used for form fields is modelled by `Option ℚ`
(`none` is the empty-string sentinel); the single value `Infinity` that
`calculateMarginRequired` can return is modelled by `Option ℚ` with `none`
standing for the infinite margin.  In exact rational arithmetic no `NaN`
can arise (every division by zero is either guarded in the source or
yields `0` in `ℚ`), so the source's final `isNaN` normalizations are
identities and are not reproduced.
-/

namespace TouchSkyTrader

/-! ## String utilities

`String.prototype.includes` (substring containment), used by
`getPairPipMultiplier` in `constants.ts`. -/

/-- Does the character list `s` start with the character list `pre`? -/
def listStartsWith : List Char → List Char → Bool
  | _, [] => true
  | [], _ :: _ => false
  | a :: as, b :: bs => a == b && listStartsWith as bs

/-- Does the character list `s` contain `sub` as a contiguous sublist? -/
def listHasSub : List Char → List Char → Bool
  | [], sub => sub.isEmpty
  | a :: as, sub => listStartsWith (a :: as) sub || listHasSub as sub

/-- JavaScript `s.includes(sub)`: substring containment test. -/
def strIncludes (s sub : String) : Bool :=
  listHasSub s.data sub.data

/-! ## Data model (`types.ts`) -/

/-- `types.ts` `CurrencyPair`: symbol, base and quote currency codes, and
contract size (units per standard lot). -/
structure CurrencyPair where
  symbol : String
  base : String
  quote : String
  contractSize : ℚ
deriving DecidableEq, Repr

/-- `types.ts` `AccountCurrency = 'USD' | 'INR' | 'GBP' | 'EUR'`. -/
inductive AccountCurrency where
  | USD | INR | GBP | EUR
deriving DecidableEq, Repr

/-- The string value of an `AccountCurrency` union member. -/
def AccountCurrency.str : AccountCurrency → String
  | .USD => "USD"
  | .INR => "INR"
  | .GBP => "GBP"
  | .EUR => "EUR"

/-- `types.ts` `Leverage = '1:30' | '1:50' | '1:100' | '1:200' | '1:500' | '1:1000'`. -/
inductive Leverage where
  | l30 | l50 | l100 | l200 | l500 | l1000
deriving DecidableEq, Repr

/-- `parseFloat(leverage.split(':')[1])` evaluated on each member of the
`Leverage` string union. -/
def leverageRatio : Leverage → ℚ
  | .l30 => 30
  | .l50 => 50
  | .l100 => 100
  | .l200 => 200
  | .l500 => 500
  | .l1000 => 1000

/-- `types.ts` `RiskType = 'percentage' | 'amount'`. -/
inductive RiskType where
  | percentage | amount
deriving DecidableEq, Repr

/-- `types.ts` `TradeType = 'buy' | 'sell'`. -/
inductive TradeType where
  | buy | sell
deriving DecidableEq, Repr

/-- The `lotSizeCategory` union `'standard' | 'mini' | 'micro'`. -/
inductive LotSizeCategory where
  | standard | mini | micro
deriving DecidableEq, Repr

/-- `types.ts` `CalculationInputs`.  The optional `takeProfitPrice` is an
`Option`. -/
structure CalculationInputs where
  accountCurrency : AccountCurrency
  accountSize : ℚ
  leverage : Leverage
  riskType : RiskType
  riskValue : ℚ
  currencyPair : CurrencyPair
  entryPrice : ℚ
  stopLossPrice : ℚ
  takeProfitPrice : Option ℚ
  tradeType : TradeType
deriving DecidableEq, Repr

/-- `types.ts` `CalculationResults`.  Nullable fields are `Option`. -/
structure CalculationResults where
  finalLotSize : ℚ
  totalRiskAmount : ℚ
  riskPerPip : ℚ
  stopLossPips : ℚ
  takeProfitPips : Option ℚ
  potentialProfitAtTP : Option ℚ
  marginRequired : ℚ
  riskToRewardRatio : Option ℚ
  lotSizeCategory : LotSizeCategory
  effectiveRiskPercentage : ℚ
deriving DecidableEq, Repr

/-! ## Static tables and pip multiplier (`constants.ts`) -/

/-- `constants.ts` `MOCK_EXCHANGE_RATES`: partial map from currency code to
its USD rate; `none` models an absent key (JS `undefined`). -/
def MOCK_EXCHANGE_RATES (currency : String) : Option ℚ :=
  if currency = "USD" then some 1
  else if currency = "USDT" then some 1
  else if currency = "EUR" then some 1.08
  else if currency = "GBP" then some 1.27
  else if currency = "JPY" then some 0.0064
  else if currency = "INR" then some 0.012
  else if currency = "AUD" then some 0.66
  else if currency = "NZD" then some 0.61
  else if currency = "CAD" then some 0.73
  else if currency = "CHF" then some 1.11
  else none

/-- `constants.ts` `getPairPipMultiplier`: 0.10 when the symbol contains
"XAU", "XAG", "NAS100" or "US30"; otherwise 0.0001. -/
def getPairPipMultiplier (symbol : String) : ℚ :=
  if strIncludes symbol "XAU" || strIncludes symbol "XAG"
      || strIncludes symbol "NAS100" || strIncludes symbol "US30" then
    0.10
  else
    0.0001

/-- The EUR/USD entry of `CURRENCY_PAIRS` (Major FX Pairs). -/
def EURUSD : CurrencyPair :=
  { symbol := "EUR/USD", base := "EUR", quote := "USD", contractSize := 100000 }

/-- The XAU/USD entry of `CURRENCY_PAIRS` (Commodity Pairs). -/
def XAUUSD : CurrencyPair :=
  { symbol := "XAU/USD", base := "XAU", quote := "USD", contractSize := 100 }

/-- The EUR/JPY entry of `CURRENCY_PAIRS` (Minor FX Pairs). -/
def EURJPY : CurrencyPair :=
  { symbol := "EUR/JPY", base := "EUR", quote := "JPY", contractSize := 100000 }

/-! ## Calculator service (`forexCalculatorService`) -/

/-- `getExchangeRateToUSD`: table lookup; a missing entry (and, per the JS
falsiness test `!rate`, a zero entry) falls back to `1.0`. -/
def getExchangeRateToUSD (currency : String) : ℚ :=
  match MOCK_EXCHANGE_RATES currency with
  | none => 1
  | some r => if r = 0 then 1 else r

/-- `convertCurrency`: identity when the currencies coincide, otherwise
convert through USD. -/
def convertCurrency (amount : ℚ) (fromCurrency toCurrency : String) : ℚ :=
  if fromCurrency = toCurrency then amount
  else amount * getExchangeRateToUSD fromCurrency / getExchangeRateToUSD toCurrency

/-- `calculatePipsDistance`: `|price1 - price2| / pipMultiplier`, with a
zero-multiplier guard returning 0. -/
def calculatePipsDistance (price1 price2 : ℚ) (currencyPair : CurrencyPair) : ℚ :=
  let pipMultiplier := getPairPipMultiplier currencyPair.symbol
  if pipMultiplier = 0 then 0
  else |price1 - price2| / pipMultiplier

/-- `calculatePipValue`: pip value of one standard lot, in the quote
currency (`pipMultiplier * contractSize`), converted to the account
currency. -/
def calculatePipValue (currencyPair : CurrencyPair) (accountCurrency : AccountCurrency) : ℚ :=
  let pipMultiplier := getPairPipMultiplier currencyPair.symbol
  let pipValueInQuoteCurrency := pipMultiplier * currencyPair.contractSize
  convertCurrency pipValueInQuoteCurrency currencyPair.quote accountCurrency.str

/-- `calculateMarginRequired`, with `leverage.split(':')` already parsed to
the rational `leverageRatio`.  The JS function returns `Infinity` when the
ratio is 0; that value is modelled by `none`.  Otherwise the position value
in USD is chosen by a three-way branch on quote/base currency and the
margin `positionValueInUSD / leverageRatio` is converted from USD to the
account currency. -/
def calculateMarginRequired (lotSize : ℚ) (leverageRatio : ℚ)
    (currencyPair : CurrencyPair) (entryPrice : ℚ)
    (accountCurrency : AccountCurrency) : Option ℚ :=
  if leverageRatio = 0 then none
  else
    let totalPositionValueInUSD : ℚ :=
      if currencyPair.quote = "USD" ∨ currencyPair.quote = "USDT" then
        lotSize * currencyPair.contractSize * entryPrice
      else if currencyPair.base = "USD" ∨ currencyPair.base = "USDT" then
        lotSize * currencyPair.contractSize
      else
        lotSize * currencyPair.contractSize * getExchangeRateToUSD currencyPair.base
    let marginInUSD := totalPositionValueInUSD / leverageRatio
    some (convertCurrency marginInUSD "USD" accountCurrency.str)

/-- `parseFloat(x.toFixed(2))`: rounding to two decimal places, modelled on
exact rationals by rounding `100 * x` to the nearest integer. -/
def roundTo2 (x : ℚ) : ℚ :=
  (round (x * 100) : ℤ) / 100

/-- The all-zero degenerate result returned on invalid input
(`accountSize`, `riskValue`, `entryPrice` or `stopLossPrice` not
positive). -/
def degenerateResults : CalculationResults :=
  { finalLotSize := 0
    totalRiskAmount := 0
    riskPerPip := 0
    stopLossPips := 0
    takeProfitPips := none
    potentialProfitAtTP := none
    marginRequired := 0
    riskToRewardRatio := none
    lotSizeCategory := .micro
    effectiveRiskPercentage := 0 }

/-- `calculateLotSize`: the lot-size calculation engine.  Follows the
source step by step; the `Leverage` union always parses to a nonzero
ratio, so the infinite-margin branch of `calculateMarginRequired` is
unreachable here and `getD 0` is a total-function fallback only. -/
def calculateLotSize (inputs : CalculationInputs) : CalculationResults :=
  if inputs.accountSize ≤ 0 ∨ inputs.riskValue ≤ 0
      ∨ inputs.entryPrice ≤ 0 ∨ inputs.stopLossPrice ≤ 0 then
    degenerateResults
  else
    let totalRiskAmount : ℚ :=
      match inputs.riskType with
      | .percentage => inputs.accountSize * inputs.riskValue / 100
      | .amount => inputs.riskValue
    let stopLossPips := calculatePipsDistance inputs.entryPrice inputs.stopLossPrice inputs.currencyPair
    if stopLossPips = 0 then
      { degenerateResults with
        totalRiskAmount := totalRiskAmount
        effectiveRiskPercentage := totalRiskAmount / inputs.accountSize * 100 }
    else
      let pipValuePerStandardLot := calculatePipValue inputs.currencyPair inputs.accountCurrency
      let recommendedLotSize := totalRiskAmount / (stopLossPips * pipValuePerStandardLot)
      let finalLotSize := max (1 / 100) (roundTo2 recommendedLotSize)
      let actualRiskAmount := finalLotSize * stopLossPips * pipValuePerStandardLot
      let effectiveRiskPercentage := actualRiskAmount / inputs.accountSize * 100
      let riskPerPip := finalLotSize * pipValuePerStandardLot
      let tpFields : Option ℚ × Option ℚ × Option ℚ :=
        match inputs.takeProfitPrice with
        | some tp =>
          if 0 < tp then
            let takeProfitPips := calculatePipsDistance inputs.entryPrice tp inputs.currencyPair
            let potentialProfitAtTP := finalLotSize * takeProfitPips * pipValuePerStandardLot
            let riskToRewardRatio : Option ℚ :=
              if 0 < stopLossPips then some (takeProfitPips / stopLossPips) else none
            (some takeProfitPips, some potentialProfitAtTP, riskToRewardRatio)
          else (none, none, none)
        | none => (none, none, none)
      let marginRequired :=
        (calculateMarginRequired finalLotSize (leverageRatio inputs.leverage)
          inputs.currencyPair inputs.entryPrice inputs.accountCurrency).getD 0
      let lotSizeCategory : LotSizeCategory :=
        if 1 ≤ finalLotSize then .standard
        else if 1 / 10 ≤ finalLotSize then .mini
        else .micro
      { finalLotSize := finalLotSize
        totalRiskAmount := actualRiskAmount
        riskPerPip := riskPerPip
        stopLossPips := stopLossPips
        takeProfitPips := tpFields.1
        potentialProfitAtTP := tpFields.2.1
        marginRequired := marginRequired
        riskToRewardRatio := tpFields.2.2
        lotSizeCategory := lotSizeCategory
        effectiveRiskPercentage := effectiveRiskPercentage }

/-! ## Pip/price conversion helpers (`App.tsx`)

Form fields of TS type `number | ''` are `Option ℚ`; `none` is the empty
string. -/

/-- `App.tsx` `getPipsFromPrices`: requires entry and target to be present
positive numbers and a nonzero multiplier; returns
`|entry - target| / multiplier`, else the empty sentinel. -/
def getPipsFromPrices (entry target : Option ℚ) (pair : CurrencyPair) : Option ℚ :=
  let multiplier := getPairPipMultiplier pair.symbol
  match entry, target with
  | some e, some t =>
    if e ≤ 0 ∨ t ≤ 0 ∨ multiplier = 0 then none
    else some (|e - t| / multiplier)
  | _, _ => none

/-- `App.tsx` `getPriceFromPips`: requires entry present and positive, pips
present and non-negative, multiplier nonzero.  The price moves down from
entry for buy stop-loss and sell take-profit, up for buy take-profit and
sell stop-loss; a computed price that is not positive yields the empty
sentinel. -/
def getPriceFromPips (entry pips : Option ℚ) (pair : CurrencyPair)
    (ty : TradeType) (isSL : Bool) : Option ℚ :=
  let multiplier := getPairPipMultiplier pair.symbol
  match entry, pips with
  | some e, some p =>
    if e ≤ 0 ∨ p < 0 ∨ multiplier = 0 then none
    else
      let priceChange := p * multiplier
      match ty with
      | .buy =>
        let calculatedPrice := if isSL then e - priceChange else e + priceChange
        if 0 < calculatedPrice then some calculatedPrice else none
      | .sell =>
        let calculatedPrice := if isSL then e + priceChange else e - priceChange
        if 0 < calculatedPrice then some calculatedPrice else none
  | _, _ => none

/-! ## Stop-loss / take-profit synchronization state machine (`App.tsx`)

The four React state cells for one target (stop-loss or take-profit) —
displayed price, displayed pips, effective price for the calculation, and
the marker of the last-edited field — are bundled in `SyncState`.  The
handlers `updateSLValues` / `updateTPValues` and the per-target halves of
the resync `useEffect` differ only in the `isSL` flag passed to
`getPriceFromPips`, so each pair is embedded as one function taking that
flag. -/

/-- Which of the two fields the user last edited (`'price' | 'pips'`). -/
inductive AnchorField where
  | price | pips
deriving DecidableEq, Repr

/-- The sync cells for one target (SL or TP): displayed price, displayed
pips, effective price for the calculation engine, last-edited marker. -/
structure SyncState where
  priceInput : Option ℚ
  pipsInput : Option ℚ
  effectivePrice : Option ℚ
  lastEdited : Option AnchorField
deriving DecidableEq, Repr

/-- The surrounding form state the sync handlers read: entry price,
instrument and trade direction. -/
structure SyncContext where
  entryPrice : Option ℚ
  currencyPair : CurrencyPair
  tradeType : TradeType
deriving DecidableEq, Repr

/-- All four sync cells cleared (the `''` / `null` resets). -/
def clearedSyncState : SyncState :=
  { priceInput := none, pipsInput := none, effectivePrice := none, lastEdited := none }

/-- `App.tsx` `updateSLValues` / `updateTPValues` (they differ only in the
`isSL` flag): on an invalid entry price or instrument, clear everything;
on a price edit, anchor on the price and derive the pips; on a pips edit,
anchor on the pips and derive the price and effective price. -/
def updateSyncValues (ctx : SyncContext) (isSL : Bool)
    (editedField : AnchorField) (value : Option ℚ) : SyncState :=
  match ctx.entryPrice with
  | none => clearedSyncState
  | some e =>
    if e ≤ 0 ∨ ctx.currencyPair.symbol = "" then clearedSyncState
    else
      match editedField with
      | .price =>
        { priceInput := value
          pipsInput :=
            match value with
            | some _ => getPipsFromPrices (some e) value ctx.currencyPair
            | none => none
          effectivePrice := value
          lastEdited := some .price }
      | .pips =>
        match value with
        | some _ =>
          let derivedPrice := getPriceFromPips (some e) value ctx.currencyPair ctx.tradeType isSL
          { priceInput := derivedPrice
            pipsInput := value
            effectivePrice := derivedPrice
            lastEdited := some .pips }
        | none =>
          { priceInput := none
            pipsInput := none
            effectivePrice := none
            lastEdited := some .pips }

/-- The per-target half of the `App.tsx` resync `useEffect` that runs when
entry price, instrument or trade direction changes: re-derive the
non-anchor field from the current anchor, or clear everything when the
context or the anchor's own value is invalid. -/
def resyncSyncValues (ctx : SyncContext) (isSL : Bool) (st : SyncState) : SyncState :=
  match ctx.entryPrice with
  | none => clearedSyncState
  | some e =>
    if e ≤ 0 ∨ ctx.currencyPair.symbol = "" then clearedSyncState
    else
      match st.lastEdited with
      | some .price =>
        match st.priceInput with
        | some v =>
          if 0 < v then
            { st with
              pipsInput := getPipsFromPrices (some e) (some v) ctx.currencyPair
              effectivePrice := some v }
          else clearedSyncState
        | none => clearedSyncState
      | some .pips =>
        match st.pipsInput with
        | some v =>
          if 0 ≤ v then
            let derivedPrice := getPriceFromPips (some e) (some v) ctx.currencyPair ctx.tradeType isSL
            { st with
              priceInput := derivedPrice
              effectivePrice := derivedPrice }
          else clearedSyncState
        | none => clearedSyncState
      | none => clearedSyncState

/-- The sync-state invariant: the effective price driving the calculation
engine is the anchored price itself when the anchor is the price field,
the price derived from the anchored pips via `getPriceFromPips` when the
anchor is the pips field, and empty when there is no anchor. -/
def SyncInvariant (ctx : SyncContext) (isSL : Bool) (st : SyncState) : Prop :=
  match st.lastEdited with
  | some .price => st.effectivePrice = st.priceInput
  | some .pips =>
    st.effectivePrice =
      st.pipsInput.bind fun p =>
        getPriceFromPips ctx.entryPrice (some p) ctx.currencyPair ctx.tradeType isSL
  | none => st.effectivePrice = none

/-! ## User-triggered calculation and history (`App.tsx`) -/

/-- The form state read by `performCalculation`. -/
structure FormState where
  accountCurrency : AccountCurrency
  accountSize : Option ℚ
  leverage : Leverage
  riskType : RiskType
  riskValue : Option ℚ
  currencyPair : CurrencyPair
  entryPrice : Option ℚ
  effectiveStopLossPriceForCalc : Option ℚ
  effectiveTakeProfitPriceForCalc : Option ℚ
  tradeType : TradeType
deriving DecidableEq, Repr

/-- The observable outcome of one `performCalculation` call: one of the
three distinct `setCalcError` messages, or a result snapshot. -/
inductive CalcOutcome where
  /-- "Please fill in all required trade details with valid positive
  numbers. Stop Loss Price must be defined and positive." -/
  | missingInput
  /-- "Stop Loss Price is too close to Entry Price. Please adjust for a
  valid calculation (minimum 1 pip distance)." -/
  | slTooCloseError
  /-- "Calculation failed: ..." (post-calculation validation). -/
  | invalidResult
  /-- Results accepted and displayed. -/
  | ok (results : CalculationResults)
deriving DecidableEq, Repr

/-- Is the outcome an accepted result? -/
def CalcOutcome.isOk : CalcOutcome → Bool
  | .ok _ => true
  | _ => false

/-- `App.tsx` `performCalculation`, up to the `setResults`/`setCalcError`
effects: basic validation, the stop-loss-too-close check against
`getPairPipMultiplier * 0.5`, the engine call, and the post-calculation
validation (`finalLotSize <= 0`; the `isNaN` disjuncts cannot fire in
exact arithmetic). -/
def performCalculation (f : FormState) : CalcOutcome :=
  match f.accountSize, f.riskValue, f.entryPrice, f.effectiveStopLossPriceForCalc with
  | some accountSize, some riskValue, some entryPrice, some stopLoss =>
    if accountSize ≤ 0 ∨ riskValue ≤ 0 ∨ entryPrice ≤ 0
        ∨ f.currencyPair.symbol = "" ∨ f.currencyPair.contractSize ≤ 0
        ∨ stopLoss ≤ 0 then
      .missingInput
    else
      let stopLossPipsForCheck := getPipsFromPrices (some entryPrice) (some stopLoss) f.currencyPair
      let minPipDistance := getPairPipMultiplier f.currencyPair.symbol * (1 / 2)
      let proceed : CalcOutcome :=
        let inputs : CalculationInputs :=
          { accountCurrency := f.accountCurrency
            accountSize := accountSize
            leverage := f.leverage
            riskType := f.riskType
            riskValue := riskValue
            currencyPair := f.currencyPair
            entryPrice := entryPrice
            stopLossPrice := stopLoss
            takeProfitPrice :=
              match f.effectiveTakeProfitPriceForCalc with
              | some tp => if 0 < tp then some tp else none
              | none => none
            tradeType := f.tradeType }
        let calculatedResults := calculateLotSize inputs
        if calculatedResults.finalLotSize ≤ 0 then .invalidResult
        else .ok calculatedResults
      match stopLossPipsForCheck with
      | some pips => if pips < minPipDistance then .slTooCloseError else proceed
      | none => proceed
  | _, _, _, _ => .missingInput

/-- `types.ts` `HistoryEntry.inputs`: the raw form snapshot stored with a
history entry. -/
structure HistorySnapshotInputs where
  accountCurrency : AccountCurrency
  accountSize : Option ℚ
  leverage : Leverage
  riskType : RiskType
  riskValue : Option ℚ
  currencyPair : CurrencyPair
  tradeType : TradeType
  entryPrice : Option ℚ
  stopLossPriceInput : Option ℚ
  stopLossPipsInput : Option ℚ
  takeProfitPriceInput : Option ℚ
  takeProfitPipsInput : Option ℚ
  lastEditedSLField : Option AnchorField
  lastEditedTPField : Option AnchorField
deriving DecidableEq, Repr

/-- `types.ts` `HistoryEntry`: identifier, timestamp, input snapshot and
results. -/
structure HistoryEntry where
  id : String
  timestamp : String
  inputs : HistorySnapshotInputs
  results : Option CalculationResults
deriving DecidableEq, Repr

/-- The history update performed inside `performCalculation`: on an
accepted outcome with positive lot size, prepend the new entry and keep
the 10 newest (`[newHistoryEntry, ...prevHistory].slice(0, 10)`);
otherwise leave the history unchanged.  `mkEntry` abstracts the entry
construction (`Date.now()` id, locale timestamp, form snapshot). -/
def updateHistoryAfterCalculation (outcome : CalcOutcome)
    (mkEntry : CalculationResults → HistoryEntry)
    (history : List HistoryEntry) : List HistoryEntry :=
  match outcome with
  | .ok r => if 0 < r.finalLotSize then (mkEntry r :: history).take 10 else history
  | _ => history

/-- One user-triggered calculation together with its history effect. -/
def performCalculationAndHistory (f : FormState)
    (mkEntry : CalculationResults → HistoryEntry)
    (history : List HistoryEntry) : CalcOutcome × List HistoryEntry :=
  let outcome := performCalculation f
  (outcome, updateHistoryAfterCalculation outcome mkEntry history)

/-- A concrete form state whose stop-loss sits 0.3 pips from the entry
price (EUR/USD, entry 1.07, stop-loss 1.06997), with all other inputs
valid and positive. -/
def halfPipBugForm : FormState :=
  { accountCurrency := .USD
    accountSize := some 10000
    leverage := .l500
    riskType := .percentage
    riskValue := some 1
    currencyPair := EURUSD
    entryPrice := some (107 / 100)
    effectiveStopLossPriceForCalc := some (106997 / 100000)
    effectiveTakeProfitPriceForCalc := none
    tradeType := .buy }

/-- The `CalculationInputs` that `performCalculation` assembles from
`halfPipBugForm`. -/
def halfPipBugInputs : CalculationInputs :=
  { accountCurrency := .USD
    accountSize := 10000
    leverage := .l500
    riskType := .percentage
    riskValue := 1
    currencyPair := EURUSD
    entryPrice := 107 / 100
    stopLossPrice := 106997 / 100000
    takeProfitPrice := none
    tradeType := .buy }

/-! ## Helper lemmas -/

/-- The pip multiplier is positive (0.10 or 0.0001) for every symbol. -/
theorem getPairPipMultiplier_pos (symbol : String) : 0 < getPairPipMultiplier symbol := by
  unfold getPairPipMultiplier
  split <;> norm_num

/-- The pip multiplier of the EUR/USD symbol is 0.0001. -/
theorem getPairPipMultiplier_EURUSD : getPairPipMultiplier "EUR/USD" = 1 / 10000 := by
  unfold getPairPipMultiplier
  rw [show (strIncludes "EUR/USD" "XAU" || strIncludes "EUR/USD" "XAG"
      || strIncludes "EUR/USD" "NAS100" || strIncludes "EUR/USD" "US30") = false from rfl]
  norm_num

/-- Unfolding of `calculateLotSize` on inputs that pass both validation
guards: every result field in terms of the engine's helpers. -/
theorem calculateLotSize_main_eq (inp : CalculationInputs)
    (h1 : 0 < inp.accountSize) (h2 : 0 < inp.riskValue)
    (h3 : 0 < inp.entryPrice) (h4 : 0 < inp.stopLossPrice)
    (h5 : calculatePipsDistance inp.entryPrice inp.stopLossPrice inp.currencyPair ≠ 0) :
    calculateLotSize inp =
      (let totalRiskAmount : ℚ :=
        if inp.riskType = .percentage then inp.accountSize * inp.riskValue / 100 else inp.riskValue
       let stopLossPips := calculatePipsDistance inp.entryPrice inp.stopLossPrice inp.currencyPair
       let pipValuePerStandardLot := calculatePipValue inp.currencyPair inp.accountCurrency
       let finalLotSize := max (1 / 100) (roundTo2 (totalRiskAmount / (stopLossPips * pipValuePerStandardLot)))
       let tpFields : Option ℚ × Option ℚ × Option ℚ :=
         match inp.takeProfitPrice with
         | some tp =>
           if 0 < tp then
             (some (calculatePipsDistance inp.entryPrice tp inp.currencyPair),
              some (finalLotSize * calculatePipsDistance inp.entryPrice tp inp.currencyPair * pipValuePerStandardLot),
              if 0 < stopLossPips then
                some (calculatePipsDistance inp.entryPrice tp inp.currencyPair / stopLossPips)
              else none)
           else (none, none, none)
         | none => (none, none, none)
       { finalLotSize := finalLotSize
         totalRiskAmount := finalLotSize * stopLossPips * pipValuePerStandardLot
         riskPerPip := finalLotSize * pipValuePerStandardLot
         stopLossPips := stopLossPips
         takeProfitPips := tpFields.1
         potentialProfitAtTP := tpFields.2.1
         marginRequired :=
           (calculateMarginRequired finalLotSize (leverageRatio inp.leverage)
             inp.currencyPair inp.entryPrice inp.accountCurrency).getD 0
         riskToRewardRatio := tpFields.2.2
         lotSizeCategory :=
           if 1 ≤ finalLotSize then .standard
           else if 1 / 10 ≤ finalLotSize then .mini
           else .micro
         effectiveRiskPercentage :=
           finalLotSize * stopLossPips * pipValuePerStandardLot / inp.accountSize * 100 }) := by
  have hg : ¬(inp.accountSize ≤ 0 ∨ inp.riskValue ≤ 0 ∨ inp.entryPrice ≤ 0 ∨ inp.stopLossPrice ≤ 0) := by
    push_neg
    exact ⟨h1, h2, h3, h4⟩
  unfold calculateLotSize
  rw [if_neg hg]
  cases hrt : inp.riskType <;>
    simp only [hrt, if_pos, if_neg, h5, ite_false, ite_true, reduceCtorEq]

/-! ## Claim theorems -/

/-- C2: any input to `calculateLotSize` with a non-positive account size,
risk value, entry price or stop-loss price yields the all-zero degenerate
result — all numeric fields 0, all nullable fields `none`, category
`micro` — and no exception is raised (the function is total). -/
theorem calculateLotSize_invalidInput_degenerate (inp : CalculationInputs)
    (h : inp.accountSize ≤ 0 ∨ inp.riskValue ≤ 0 ∨ inp.entryPrice ≤ 0 ∨ inp.stopLossPrice ≤ 0) :
    calculateLotSize inp =
      { finalLotSize := 0
        totalRiskAmount := 0
        riskPerPip := 0
        stopLossPips := 0
        takeProfitPips := none
        potentialProfitAtTP := none
        marginRequired := 0
        riskToRewardRatio := none
        lotSizeCategory := .micro
        effectiveRiskPercentage := 0 } := by
  unfold calculateLotSize
  rw [if_pos h]
  rfl

/-- Witness for C2 at a concrete input with `accountSize = 0`. -/
theorem calculateLotSize_invalidInput_degenerate_witness :
    ((0 : ℚ) ≤ 0 ∨ (1 : ℚ) ≤ 0 ∨ (107 / 100 : ℚ) ≤ 0 ∨ (1065 / 1000 : ℚ) ≤ 0)
    ∧ calculateLotSize
        { accountCurrency := .USD, accountSize := 0, leverage := .l500,
          riskType := .percentage, riskValue := 1, currencyPair := EURUSD,
          entryPrice := 107 / 100, stopLossPrice := 1065 / 1000,
          takeProfitPrice := none, tradeType := .buy } =
      { finalLotSize := 0, totalRiskAmount := 0, riskPerPip := 0, stopLossPips := 0,
        takeProfitPips := none, potentialProfitAtTP := none, marginRequired := 0,
        riskToRewardRatio := none, lotSizeCategory := .micro, effectiveRiskPercentage := 0 } :=
  ⟨Or.inl le_rfl,
   calculateLotSize_invalidInput_degenerate _ (Or.inl le_rfl)⟩

/-- C3: with all four validation inputs positive but a pip distance of
exactly 0 between entry and stop-loss, `calculateLotSize` returns the
zeroed result while preserving the computed total risk amount
(`accountSize * riskValue / 100` for percentage risk, `riskValue` for
amount risk) and the effective risk percentage
`totalRiskAmount / accountSize * 100`; no exception is raised. -/
theorem calculateLotSize_zeroPipDistance_degenerate (inp : CalculationInputs)
    (h1 : 0 < inp.accountSize) (h2 : 0 < inp.riskValue)
    (h3 : 0 < inp.entryPrice) (h4 : 0 < inp.stopLossPrice)
    (h5 : calculatePipsDistance inp.entryPrice inp.stopLossPrice inp.currencyPair = 0) :
    calculateLotSize inp =
      { finalLotSize := 0
        totalRiskAmount :=
          if inp.riskType = .percentage then inp.accountSize * inp.riskValue / 100 else inp.riskValue
        riskPerPip := 0
        stopLossPips := 0
        takeProfitPips := none
        potentialProfitAtTP := none
        marginRequired := 0
        riskToRewardRatio := none
        lotSizeCategory := .micro
        effectiveRiskPercentage :=
          (if inp.riskType = .percentage then inp.accountSize * inp.riskValue / 100 else inp.riskValue)
            / inp.accountSize * 100 } := by
  have hg : ¬(inp.accountSize ≤ 0 ∨ inp.riskValue ≤ 0 ∨ inp.entryPrice ≤ 0 ∨ inp.stopLossPrice ≤ 0) := by
    push_neg
    exact ⟨h1, h2, h3, h4⟩
  unfold calculateLotSize
  rw [if_neg hg]
  cases hrt : inp.riskType <;> simp [hrt, h5, degenerateResults]

/-- Witness for C3: stop-loss price equal to entry price (Scenario D). -/
theorem calculateLotSize_zeroPipDistance_degenerate_witness :
    ((0 : ℚ) < 10000 ∧ (0 : ℚ) < 1 ∧ (0 : ℚ) < 107 / 100 ∧ (0 : ℚ) < 107 / 100
      ∧ calculatePipsDistance (107 / 100) (107 / 100) EURUSD = 0)
    ∧ calculateLotSize
        { accountCurrency := .USD, accountSize := 10000, leverage := .l500,
          riskType := .percentage, riskValue := 1, currencyPair := EURUSD,
          entryPrice := 107 / 100, stopLossPrice := 107 / 100,
          takeProfitPrice := none, tradeType := .buy } =
      { finalLotSize := 0,
        totalRiskAmount :=
          if RiskType.percentage = RiskType.percentage then (10000 : ℚ) * 1 / 100 else 1,
        riskPerPip := 0, stopLossPips := 0,
        takeProfitPips := none, potentialProfitAtTP := none, marginRequired := 0,
        riskToRewardRatio := none, lotSizeCategory := .micro,
        effectiveRiskPercentage :=
          (if RiskType.percentage = RiskType.percentage then (10000 : ℚ) * 1 / 100 else 1)
            / 10000 * 100 } := by
  have hpips : calculatePipsDistance (107 / 100) (107 / 100) EURUSD = 0 := by
    simp [calculatePipsDistance, sub_self]
  exact ⟨⟨by norm_num, by norm_num, by norm_num, by norm_num, hpips⟩,
    calculateLotSize_zeroPipDistance_degenerate _
      (by norm_num) (by norm_num) (by norm_num) (by norm_num) hpips⟩

/-- C7: for a nonzero leverage ratio, `calculateMarginRequired` returns
the position value in USD — chosen by the three-way quote/base branch —
divided by the leverage ratio and converted from USD to the account
currency, and a leverage ratio of 0 yields the infinite-margin sentinel
(`none` models the JS `Infinity`). -/
theorem calculateMarginRequired_branch_spec (lotSize ratio : ℚ) (pair : CurrencyPair)
    (entryPrice : ℚ) (acct : AccountCurrency) (h : ratio ≠ 0) :
    calculateMarginRequired lotSize ratio pair entryPrice acct =
      some (convertCurrency
        ((if pair.quote = "USD" ∨ pair.quote = "USDT" then
            lotSize * pair.contractSize * entryPrice
          else if pair.base = "USD" ∨ pair.base = "USDT" then
            lotSize * pair.contractSize
          else
            lotSize * pair.contractSize * getExchangeRateToUSD pair.base) / ratio)
        "USD" acct.str)
    ∧ calculateMarginRequired lotSize 0 pair entryPrice acct = none := by
  constructor
  · unfold calculateMarginRequired
    rw [if_neg h]
  · unfold calculateMarginRequired
    rw [if_pos rfl]

/-- Witness for C7 at EUR/JPY (cross-pair branch) with ratio 500. -/
theorem calculateMarginRequired_branch_spec_witness :
    (500 : ℚ) ≠ 0
    ∧ (calculateMarginRequired 1 500 EURJPY (168 : ℚ) .USD =
        some (convertCurrency
          ((if EURJPY.quote = "USD" ∨ EURJPY.quote = "USDT" then
              (1 : ℚ) * EURJPY.contractSize * 168
            else if EURJPY.base = "USD" ∨ EURJPY.base = "USDT" then
              (1 : ℚ) * EURJPY.contractSize
            else
              (1 : ℚ) * EURJPY.contractSize * getExchangeRateToUSD EURJPY.base) / 500)
          "USD" AccountCurrency.USD.str)
      ∧ calculateMarginRequired 1 0 EURJPY (168 : ℚ) .USD = none) :=
  ⟨by norm_num, calculateMarginRequired_branch_spec 1 500 EURJPY 168 .USD (by norm_num)⟩

/-- C10: `calculateLotSize` never consults the trade direction: results
with `tradeType = buy` and `tradeType = sell` (all other inputs equal)
are identical in every field. -/
theorem calculateLotSize_tradeType_independent (inp : CalculationInputs) (t₁ t₂ : TradeType) :
    calculateLotSize { inp with tradeType := t₁ } = calculateLotSize { inp with tradeType := t₂ } :=
  rfl

/-- C1: on inputs passing validation with a nonzero stop-loss pip
distance, the final lot size is
`max(0.01, roundTo2(totalRiskAmount / (stopLossPips * pipValuePerStandardLot)))`
— hence at least 0.01 — where the total risk amount is
`accountSize * riskValue / 100` for percentage risk and `riskValue` for
amount risk; and the returned `totalRiskAmount` and
`effectiveRiskPercentage` are recomputed from the final lot size. -/
theorem calculateLotSize_formula_spec (inp : CalculationInputs)
    (h1 : 0 < inp.accountSize) (h2 : 0 < inp.riskValue)
    (h3 : 0 < inp.entryPrice) (h4 : 0 < inp.stopLossPrice)
    (h5 : calculatePipsDistance inp.entryPrice inp.stopLossPrice inp.currencyPair ≠ 0) :
    (calculateLotSize inp).finalLotSize =
      max (1 / 100) (roundTo2
        ((if inp.riskType = .percentage then inp.accountSize * inp.riskValue / 100 else inp.riskValue)
          / (calculatePipsDistance inp.entryPrice inp.stopLossPrice inp.currencyPair
              * calculatePipValue inp.currencyPair inp.accountCurrency)))
    ∧ 1 / 100 ≤ (calculateLotSize inp).finalLotSize
    ∧ (calculateLotSize inp).totalRiskAmount =
        (calculateLotSize inp).finalLotSize
          * calculatePipsDistance inp.entryPrice inp.stopLossPrice inp.currencyPair
          * calculatePipValue inp.currencyPair inp.accountCurrency
    ∧ (calculateLotSize inp).effectiveRiskPercentage =
        (calculateLotSize inp).totalRiskAmount / inp.accountSize * 100 := by
  rw [calculateLotSize_main_eq inp h1 h2 h3 h4 h5]
  exact ⟨rfl, le_max_left _ _, rfl, rfl⟩

/-- Witness for C1: Scenario A (EUR/USD, 10000 USD account, 1:500, 1 %
risk, entry 1.07, stop-loss 1.065). -/
theorem calculateLotSize_formula_spec_witness :
    ((0 : ℚ) < 10000 ∧ (0 : ℚ) < 1 ∧ (0 : ℚ) < 107 / 100 ∧ (0 : ℚ) < 1065 / 1000
      ∧ calculatePipsDistance (107 / 100) (1065 / 1000) EURUSD ≠ 0)
    ∧ ((calculateLotSize
        { accountCurrency := .USD, accountSize := 10000, leverage := .l500,
          riskType := .percentage, riskValue := 1, currencyPair := EURUSD,
          entryPrice := 107 / 100, stopLossPrice := 1065 / 1000,
          takeProfitPrice := none, tradeType := .buy }).finalLotSize =
      max (1 / 100) (roundTo2
        ((if RiskType.percentage = RiskType.percentage then (10000 : ℚ) * 1 / 100 else 1)
          / (calculatePipsDistance (107 / 100) (1065 / 1000) EURUSD
              * calculatePipValue EURUSD .USD)))
    ∧ 1 / 100 ≤ (calculateLotSize
        { accountCurrency := .USD, accountSize := 10000, leverage := .l500,
          riskType := .percentage, riskValue := 1, currencyPair := EURUSD,
          entryPrice := 107 / 100, stopLossPrice := 1065 / 1000,
          takeProfitPrice := none, tradeType := .buy }).finalLotSize
    ∧ (calculateLotSize
        { accountCurrency := .USD, accountSize := 10000, leverage := .l500,
          riskType := .percentage, riskValue := 1, currencyPair := EURUSD,
          entryPrice := 107 / 100, stopLossPrice := 1065 / 1000,
          takeProfitPrice := none, tradeType := .buy }).totalRiskAmount =
        (calculateLotSize
          { accountCurrency := .USD, accountSize := 10000, leverage := .l500,
            riskType := .percentage, riskValue := 1, currencyPair := EURUSD,
            entryPrice := 107 / 100, stopLossPrice := 1065 / 1000,
            takeProfitPrice := none, tradeType := .buy }).finalLotSize
          * calculatePipsDistance (107 / 100) (1065 / 1000) EURUSD
          * calculatePipValue EURUSD .USD
    ∧ (calculateLotSize
        { accountCurrency := .USD, accountSize := 10000, leverage := .l500,
          riskType := .percentage, riskValue := 1, currencyPair := EURUSD,
          entryPrice := 107 / 100, stopLossPrice := 1065 / 1000,
          takeProfitPrice := none, tradeType := .buy }).effectiveRiskPercentage =
        (calculateLotSize
          { accountCurrency := .USD, accountSize := 10000, leverage := .l500,
            riskType := .percentage, riskValue := 1, currencyPair := EURUSD,
            entryPrice := 107 / 100, stopLossPrice := 1065 / 1000,
            takeProfitPrice := none, tradeType := .buy }).totalRiskAmount / 10000 * 100) := by
  have h5 : calculatePipsDistance (107 / 100) (1065 / 1000) EURUSD = 50 := by
    unfold calculatePipsDistance
    rw [show EURUSD.symbol = "EUR/USD" from rfl, getPairPipMultiplier_EURUSD]
    rw [show (107 / 100 : ℚ) - 1065 / 1000 = 1 / 200 by norm_num]
    rw [abs_of_nonneg (by norm_num : (0 : ℚ) ≤ 1 / 200)]
    norm_num
  exact ⟨⟨by norm_num, by norm_num, by norm_num, by norm_num, by rw [h5]; norm_num⟩,
    calculateLotSize_formula_spec _
      (by norm_num) (by norm_num) (by norm_num) (by norm_num) (by rw [h5]; norm_num)⟩

/-- C5: `getPriceFromPips`, for a present positive entry, present
non-negative pips and nonzero multiplier, returns
`entry - pips * multiplier` for buy stop-loss and sell take-profit and
`entry + pips * multiplier` for buy take-profit and sell stop-loss, and
returns the empty sentinel whenever the computed price is not
positive. -/
theorem getPriceFromPips_direction_spec (pair : CurrencyPair) (ty : TradeType) (isSL : Bool)
    (e p : ℚ) (he : 0 < e) (hp : 0 ≤ p) (hm : getPairPipMultiplier pair.symbol ≠ 0) :
    ((ty = .buy ∧ isSL = true) ∨ (ty = .sell ∧ isSL = false) →
      getPriceFromPips (some e) (some p) pair ty isSL =
        if 0 < e - p * getPairPipMultiplier pair.symbol then
          some (e - p * getPairPipMultiplier pair.symbol)
        else none)
    ∧ ((ty = .buy ∧ isSL = false) ∨ (ty = .sell ∧ isSL = true) →
      getPriceFromPips (some e) (some p) pair ty isSL =
        if 0 < e + p * getPairPipMultiplier pair.symbol then
          some (e + p * getPairPipMultiplier pair.symbol)
        else none) := by
  have hg : ¬(e ≤ 0 ∨ p < 0 ∨ getPairPipMultiplier pair.symbol = 0) := by
    push_neg
    exact ⟨he, hp, hm⟩
  cases ty <;> cases isSL <;>
    refine ⟨fun hc => ?_, fun hc => ?_⟩ <;>
    simp_all [getPriceFromPips]

/-- Witness for C5: EUR/USD, buy, stop-loss role, entry 1.07, 50 pips. -/
theorem getPriceFromPips_direction_spec_witness :
    ((0 : ℚ) < 107 / 100 ∧ (0 : ℚ) ≤ 50 ∧ getPairPipMultiplier EURUSD.symbol ≠ 0)
    ∧ (((TradeType.buy = TradeType.buy ∧ true = true)
          ∨ (TradeType.buy = TradeType.sell ∧ true = false) →
        getPriceFromPips (some (107 / 100)) (some 50) EURUSD .buy true =
          if 0 < (107 / 100 : ℚ) - 50 * getPairPipMultiplier EURUSD.symbol then
            some ((107 / 100 : ℚ) - 50 * getPairPipMultiplier EURUSD.symbol)
          else none)
      ∧ ((TradeType.buy = TradeType.buy ∧ true = false)
          ∨ (TradeType.buy = TradeType.sell ∧ true = true) →
        getPriceFromPips (some (107 / 100)) (some 50) EURUSD .buy true =
          if 0 < (107 / 100 : ℚ) + 50 * getPairPipMultiplier EURUSD.symbol then
            some ((107 / 100 : ℚ) + 50 * getPairPipMultiplier EURUSD.symbol)
          else none)) := by
  have hm : getPairPipMultiplier EURUSD.symbol ≠ 0 := (getPairPipMultiplier_pos _).ne'
  exact ⟨⟨by norm_num, by norm_num, hm⟩,
    getPriceFromPips_direction_spec EURUSD .buy true (107 / 100) 50 (by norm_num) (by norm_num) hm⟩

/-- C4: round-trip law — whenever `getPriceFromPips` derives a price from
a positive entry and non-negative pip count, `getPipsFromPrices` applied
to the entry and the derived price recovers the pip count exactly (in
exact rational arithmetic). -/
theorem pipsFromPrices_priceFromPips_roundtrip (pair : CurrencyPair) (ty : TradeType)
    (isSL : Bool) (e p q : ℚ) (he : 0 < e) (hp : 0 ≤ p)
    (hq : getPriceFromPips (some e) (some p) pair ty isSL = some q) :
    getPipsFromPrices (some e) (some q) pair = some p := by
  have hm : 0 < getPairPipMultiplier pair.symbol := getPairPipMultiplier_pos pair.symbol
  have hg : ¬(e ≤ 0 ∨ p < 0 ∨ getPairPipMultiplier pair.symbol = 0) := by
    push_neg
    exact ⟨he, hp, hm.ne'⟩
  set m := getPairPipMultiplier pair.symbol with hmdef
  have habs : |p * m| = p * m := abs_of_nonneg (mul_nonneg hp hm.le)
  have hcancel : p * m / m = p := by
    rw [mul_div_assoc, div_self hm.ne', mul_one]
  have step : ∀ c : ℚ, (e - c = p * m ∨ c - e = p * m) →
      (if 0 < c then some c else none) = some q →
      getPipsFromPrices (some e) (some q) pair = some p := by
    intro c hc hifq
    by_cases hpos : 0 < c
    · rw [if_pos hpos] at hifq
      have hcq := Option.some.inj hifq
      subst hcq
      unfold getPipsFromPrices
      show (if e ≤ 0 ∨ c ≤ 0 ∨ m = 0 then none else some (|e - c| / m)) = some p
      rw [if_neg (by push_neg; exact ⟨he, hpos, hm.ne'⟩)]
      congr 1
      rcases hc with h | h
      · rw [h, habs, hcancel]
      · rw [abs_sub_comm, h, habs, hcancel]
    · rw [if_neg hpos] at hifq
      exact absurd hifq (by simp)
  unfold getPriceFromPips at hq
  rw [← hmdef] at hq
  simp only [hg, if_false, ite_false] at hq
  cases ty <;> cases isSL <;>
    simp only [ite_true, ite_false, Bool.false_eq_true, if_true, if_false] at hq <;>
    first
    | exact step (e - p * m) (Or.inl (by ring)) hq
    | exact step (e + p * m) (Or.inr (by ring)) hq

/-- Witness for C4: EUR/USD, buy, stop-loss role, entry 1.07, 50 pips;
the derived price is 1.065 and the recovered pip count is 50. -/
theorem pipsFromPrices_priceFromPips_roundtrip_witness :
    ((0 : ℚ) < 107 / 100 ∧ (0 : ℚ) ≤ 50
      ∧ getPriceFromPips (some (107 / 100)) (some 50) EURUSD .buy true = some (213 / 200))
    ∧ getPipsFromPrices (some (107 / 100)) (some (213 / 200)) EURUSD = some 50 := by
  have hderive : getPriceFromPips (some (107 / 100)) (some 50) EURUSD .buy true = some (213 / 200) := by
    unfold getPriceFromPips
    rw [show EURUSD.symbol = "EUR/USD" from rfl, getPairPipMultiplier_EURUSD]
    norm_num
  exact ⟨⟨by norm_num, by norm_num, hderive⟩,
    pipsFromPrices_priceFromPips_roundtrip EURUSD .buy true (107 / 100) 50 (213 / 200)
      (by norm_num) (by norm_num) hderive⟩

/-- C6: after every user edit of a stop-loss/take-profit field and after
every re-derivation triggered by a change of entry price, instrument or
trade direction, the effective price fed to the calculation engine equals
the anchored price itself when the last-edited field is the price, and
the price derived from the anchored pips via `getPriceFromPips` when the
last-edited field is the pips — never a stale non-anchor field. -/
theorem syncState_effective_matches_anchor (ctx : SyncContext) (isSL : Bool)
    (editedField : AnchorField) (value : Option ℚ) (st : SyncState) :
    SyncInvariant ctx isSL (updateSyncValues ctx isSL editedField value)
    ∧ SyncInvariant ctx isSL (resyncSyncValues ctx isSL st) := by
  constructor
  · unfold updateSyncValues
    cases hctx : ctx.entryPrice with
    | none => simp [SyncInvariant, clearedSyncState]
    | some e =>
      by_cases hguard : e ≤ 0 ∨ ctx.currencyPair.symbol = ""
      · simp [hguard, SyncInvariant, clearedSyncState]
      · simp only [if_neg hguard]
        cases editedField with
        | price => simp [SyncInvariant]
        | pips =>
          cases value with
          | none => simp [SyncInvariant]
          | some v => simp [SyncInvariant, hctx]
  · unfold resyncSyncValues
    cases hctx : ctx.entryPrice with
    | none => simp [SyncInvariant, clearedSyncState]
    | some e =>
      by_cases hguard : e ≤ 0 ∨ ctx.currencyPair.symbol = ""
      · simp [hguard, SyncInvariant, clearedSyncState]
      · simp only [if_neg hguard]
        cases hle : st.lastEdited with
        | none => simp [SyncInvariant, clearedSyncState]
        | some a =>
          cases a with
          | price =>
            cases hpi : st.priceInput with
            | none => simp [SyncInvariant, clearedSyncState]
            | some v =>
              by_cases hv : 0 < v
              · simp [hv, SyncInvariant, hle, hpi]
              · simp [hv, SyncInvariant, clearedSyncState]
          | pips =>
            cases hpi : st.pipsInput with
            | none => simp [SyncInvariant, clearedSyncState]
            | some v =>
              by_cases hv : 0 ≤ v
              · simp [hv, SyncInvariant, hle, hpi, hctx]
              · simp [hv, SyncInvariant, clearedSyncState]

/-- C9: for one user-triggered calculation, the history list stays capped
at 10 entries; a new entry is prepended (newest first, then truncated to
the 10 newest) exactly when the calculation is accepted with a positive
final lot size, and the history is unchanged on every other outcome. -/
theorem calculationHistory_bounded_newestFirst (f : FormState)
    (mkEntry : CalculationResults → HistoryEntry)
    (history : List HistoryEntry) (hlen : history.length ≤ 10) :
    ((performCalculationAndHistory f mkEntry history).2).length ≤ 10
    ∧ (∀ r, performCalculation f = .ok r → 0 < r.finalLotSize →
        (performCalculationAndHistory f mkEntry history).2 = (mkEntry r :: history).take 10)
    ∧ (∀ r, performCalculation f = .ok r → r.finalLotSize ≤ 0 →
        (performCalculationAndHistory f mkEntry history).2 = history)
    ∧ ((performCalculation f).isOk = false →
        (performCalculationAndHistory f mkEntry history).2 = history) := by
  simp only [performCalculationAndHistory, updateHistoryAfterCalculation]
  cases ho : performCalculation f with
  | ok r =>
    by_cases hr : 0 < r.finalLotSize
    · refine ⟨?_, ?_, ?_, ?_⟩
      · simp only [if_pos hr, List.length_take]
        exact min_le_left _ _
      · intro r' hok hpos
        injection hok with h
        subst h
        simp only [if_pos hr]
      · intro r' hok hle
        injection hok with h
        subst h
        exact absurd hr hle.not_lt
      · intro hfalse
        simp [CalcOutcome.isOk] at hfalse
    · refine ⟨?_, ?_, ?_, ?_⟩
      · simp only [if_neg hr]
        exact hlen
      · intro r' hok hpos
        injection hok with h
        subst h
        exact absurd hpos hr
      · intro r' hok hle
        simp only [if_neg hr]
      · intro hfalse
        simp [CalcOutcome.isOk] at hfalse
  | missingInput =>
    refine ⟨hlen, ?_, ?_, fun _ => rfl⟩ <;> (intro r hok hr; simp at hok)
  | slTooCloseError =>
    refine ⟨hlen, ?_, ?_, fun _ => rfl⟩ <;> (intro r hok hr; simp at hok)
  | invalidResult =>
    refine ⟨hlen, ?_, ?_, fun _ => rfl⟩ <;> (intro r hok hr; simp at hok)

/-- Witness for C9: empty starting history and a form whose fields are
all absent (outcome `missingInput`). -/
theorem calculationHistory_bounded_newestFirst_witness :
    (([] : List HistoryEntry).length ≤ 10)
    ∧ (((performCalculationAndHistory
          { accountCurrency := .USD, accountSize := none, leverage := .l500,
            riskType := .percentage, riskValue := none, currencyPair := EURUSD,
            entryPrice := none, effectiveStopLossPriceForCalc := none,
            effectiveTakeProfitPriceForCalc := none, tradeType := .buy }
          (fun r => { id := "0", timestamp := "t",
                      inputs := { accountCurrency := .USD, accountSize := none,
                                  leverage := .l500, riskType := .percentage,
                                  riskValue := none, currencyPair := EURUSD,
                                  tradeType := .buy, entryPrice := none,
                                  stopLossPriceInput := none, stopLossPipsInput := none,
                                  takeProfitPriceInput := none, takeProfitPipsInput := none,
                                  lastEditedSLField := none, lastEditedTPField := none },
                      results := some r })
          []).2).length ≤ 10) :=
  ⟨by simp,
   (calculationHistory_bounded_newestFirst _ _ [] (by simp)).1⟩

/-- C8 (failing input): with all inputs valid and positive and a
stop-loss only 0.3 pips from the entry price — below half a pip — the
calculation step does NOT reject with the dedicated too-close validation
error: because the code compares the pip count against
`pipMultiplier * 0.5` (a price-unit threshold, 0.00005 for EUR/USD)
instead of against half a pip, the check passes and a result is
accepted, contradicting both the claim and the code's own
"minimum 1 pip distance" error message. -/
theorem performCalculation_acceptsSubHalfPipDistance :
    getPipsFromPrices halfPipBugForm.entryPrice halfPipBugForm.effectiveStopLossPriceForCalc
      halfPipBugForm.currencyPair = some (3 / 10)
    ∧ (3 / 10 : ℚ) < 1 / 2
    ∧ performCalculation halfPipBugForm ≠ .slTooCloseError
    ∧ (performCalculation halfPipBugForm).isOk = true := by
  have hsym : EURUSD.symbol = "EUR/USD" := rfl
  have hdiff : (107 / 100 : ℚ) - 106997 / 100000 = 3 / 100000 := by norm_num
  have habs : |(107 / 100 : ℚ) - 106997 / 100000| = 3 / 100000 := by
    rw [hdiff]
    exact abs_of_nonneg (by norm_num)
  have hpips : getPipsFromPrices (some (107 / 100)) (some (106997 / 100000)) EURUSD
      = some (3 / 10) := by
    show (if (107 / 100 : ℚ) ≤ 0 ∨ (106997 / 100000 : ℚ) ≤ 0
            ∨ getPairPipMultiplier EURUSD.symbol = 0 then none
          else some (|(107 / 100 : ℚ) - 106997 / 100000| / getPairPipMultiplier EURUSD.symbol))
        = some (3 / 10)
    rw [hsym, getPairPipMultiplier_EURUSD, if_neg (by push_neg; norm_num), habs]
    norm_num
  have hpd : calculatePipsDistance halfPipBugInputs.entryPrice halfPipBugInputs.stopLossPrice
      halfPipBugInputs.currencyPair = 3 / 10 := by
    show (if getPairPipMultiplier EURUSD.symbol = 0 then 0
          else |(107 / 100 : ℚ) - 106997 / 100000| / getPairPipMultiplier EURUSD.symbol)
        = 3 / 10
    rw [hsym, getPairPipMultiplier_EURUSD, if_neg (by norm_num), habs]
    norm_num
  have h5 : calculatePipsDistance halfPipBugInputs.entryPrice halfPipBugInputs.stopLossPrice
      halfPipBugInputs.currencyPair ≠ 0 := by
    rw [hpd]
    norm_num
  have hflz : 0 < (calculateLotSize halfPipBugInputs).finalLotSize := by
    rw [calculateLotSize_main_eq halfPipBugInputs (by norm_num [halfPipBugInputs])
      (by norm_num [halfPipBugInputs]) (by norm_num [halfPipBugInputs])
      (by norm_num [halfPipBugInputs]) h5]
    exact lt_of_lt_of_le (by norm_num) (le_max_left _ _)
  have hguard : ¬((10000 : ℚ) ≤ 0 ∨ (1 : ℚ) ≤ 0 ∨ (107 / 100 : ℚ) ≤ 0
      ∨ EURUSD.symbol = "" ∨ EURUSD.contractSize ≤ 0 ∨ (106997 / 100000 : ℚ) ≤ 0) := by
    push_neg
    exact ⟨by norm_num, by norm_num, by norm_num, by decide, by norm_num [EURUSD], by norm_num⟩
  have hperf : performCalculation halfPipBugForm = .ok (calculateLotSize halfPipBugInputs) := by
    simp only [performCalculation, halfPipBugForm]
    simp only [if_neg hguard, hpips]
    rw [hsym, getPairPipMultiplier_EURUSD]
    rw [if_neg (by norm_num : ¬(3 / 10 : ℚ) < 1 / 10000 * (1 / 2))]
    show (if (calculateLotSize halfPipBugInputs).finalLotSize ≤ 0 then CalcOutcome.invalidResult
          else CalcOutcome.ok (calculateLotSize halfPipBugInputs))
        = CalcOutcome.ok (calculateLotSize halfPipBugInputs)
    rw [if_neg (not_le.mpr hflz)]
  exact ⟨hpips, by norm_num, by rw [hperf]; simp, by rw [hperf]; rfl⟩

end TouchSkyTrader
